import Mathlib

/-!
Shallow embedding of the BirdiePDF document viewport engine.

The definitions below are translated from the repository sources:
`src/lib/components/PDFViewer.tsx` (the viewer component: fit-scale
calculation effects, page admission from IntersectionObserver batches,
go-to-page scrolling, the search scan) and the newest `App.tsx` revision
(`src/unnamed/part_001`: page-change handling, file opening, search
submission and result handling).  JavaScript numbers are modelled as `ℚ`,
page numbers as `ℤ`, strings as `List Char`, and JavaScript truthiness of
a number is modelled as being nonzero (`NaN` does not arise in the
modelled paths).  React state updates are modelled as pure state
transitions; an effect that fires after a state change is composed
directly after the transition that triggers it.
-/

/-- Width/height pair (`{width, height}` objects in the source). -/
structure Dimensions where
  width : ℚ
  height : ℚ
deriving DecidableEq

/-- Outcome of one pass of a fit-calculation effect: either
`onOptimalScaleCalculated(s)` is invoked, or a retry timeout is armed. -/
inductive FitResult where
  | scale (s : ℚ)
  | retry
deriving DecidableEq

/-- JavaScript `a || b` on optional numbers: `a` wins iff it is present and
nonzero (truthy); otherwise `b` is used. -/
def jsOrQ (a b : Option ℚ) : Option ℚ :=
  match a with
  | some x => if x ≠ 0 then some x else b
  | none => b

/-- The `calculatingFitWidth` effect of `PDFViewer.tsx` (lines 160-196),
immediate pass: `containerWidth = calculationTargetDimensions?.width ||
pageContainerRef.current?.clientWidth`; if `pageDimensions?.width &&
containerWidth` is truthy, emit `containerWidth / pageDimensions.width`
when both are positive and `1` otherwise; on a falsy input arm the retry
timeout. -/
def calculateFitWidth (calcTarget : Option Dimensions) (clientWidth : Option ℚ)
    (pageWidth : Option ℚ) : FitResult :=
  let containerWidth := jsOrQ (calcTarget.map Dimensions.width) clientWidth
  match pageWidth, containerWidth with
  | some pw, some cw =>
      if pw ≠ 0 ∧ cw ≠ 0 then
        if 0 < cw ∧ 0 < pw then FitResult.scale (cw / pw) else FitResult.scale 1
      else FitResult.retry
  | _, _ => FitResult.retry

/-- The retry body of the `calculatingFitWidth` effect (the 100 ms
`setTimeout`): emits `laterContainerWidth / laterPageDimensions.width` when
`laterContainerWidth && laterPageDimensions?.width &&
laterPageDimensions.width > 0`, and the fallback scale `1` otherwise. -/
def calculateFitWidthRetry (calcTarget : Option Dimensions) (clientWidth : Option ℚ)
    (pageWidth : Option ℚ) : FitResult :=
  let containerWidth := jsOrQ (calcTarget.map Dimensions.width) clientWidth
  match containerWidth, pageWidth with
  | some cw, some pw =>
      if cw ≠ 0 ∧ pw ≠ 0 ∧ 0 < pw then FitResult.scale (cw / pw) else FitResult.scale 1
  | _, _ => FitResult.scale 1

/-- The `calculatingFitPage` effect of `PDFViewer.tsx` (lines 199-247),
immediate pass.  `targetWidth/Height = calculationTargetDimensions?.w/h ||
pageContainerSize.w/h`; with every dimension truthy and the page dimensions
positive, `fitScale = min(targetWidth/pageWidth, targetHeight/pageHeight)`
is emitted if it exceeds `0.01` and `1` is emitted otherwise; if the check
fails but page dimensions exist, `1` is emitted; with no recorded page
dimensions the retry timeout is armed. -/
def calculateFitPage (calcTarget : Option Dimensions) (containerW containerH : Option ℚ)
    (pageDims : Option Dimensions) : FitResult :=
  let tw := jsOrQ (calcTarget.map Dimensions.width) containerW
  let th := jsOrQ (calcTarget.map Dimensions.height) containerH
  match pageDims with
  | none => FitResult.retry
  | some pd =>
      match tw, th with
      | some w, some h =>
          if w ≠ 0 ∧ h ≠ 0 ∧ pd.width ≠ 0 ∧ pd.height ≠ 0 ∧ 0 < pd.width ∧ 0 < pd.height then
            let scaleX := w / pd.width
            let scaleY := h / pd.height
            let fitScale := min scaleX scaleY
            if 1 / 100 < fitScale then FitResult.scale fitScale else FitResult.scale 1
          else FitResult.scale 1
      | _, _ => FitResult.scale 1

/-- The retry body of the `calculatingFitPage` effect (the 150 ms
`setTimeout`): recomputes the fit scale from fresh values and always emits,
flooring at `1` when the recomputed minimum is `≤ 0.01` or any required
value is missing, zero, or a page dimension is non-positive. -/
def calculateFitPageRetry (calcTarget : Option Dimensions) (containerW containerH : Option ℚ)
    (pageDims : Option Dimensions) : FitResult :=
  let tw := jsOrQ (calcTarget.map Dimensions.width) containerW
  let th := jsOrQ (calcTarget.map Dimensions.height) containerH
  match pageDims, tw, th with
  | some pd, some w, some h =>
      if w ≠ 0 ∧ h ≠ 0 ∧ pd.width ≠ 0 ∧ 0 < pd.width ∧ pd.height ≠ 0 ∧ 0 < pd.height then
        let fitScale := min (w / pd.width) (h / pd.height)
        if 1 / 100 < fitScale then FitResult.scale fitScale else FitResult.scale 1
      else FitResult.scale 1
  | _, _, _ => FitResult.scale 1

/-- Constant `PAGES_TO_PRELOAD_BUFFER` from `PDFViewer.tsx` line 43. -/
def PAGES_TO_PRELOAD_BUFFER : ℤ := 3

/-- One `IntersectionObserverEntry` as consumed by `handleIntersect`:
the page number parsed from `data-page-number`, the `isIntersecting`
flag, and `boundingClientRect.top`. -/
structure IntersectEntry where
  pageNumber : ℤ
  isIntersecting : Bool
  top : ℚ
deriving DecidableEq

/-- One step of the admission loop in `handleIntersect` (`PDFViewer.tsx`
lines 376-393): an intersecting entry admits
`[max(1, p - PAGES_TO_PRELOAD_BUFFER), min(numPages, p + PAGES_TO_PRELOAD_BUFFER)]`
into the rendered-pages set. -/
def admitStep (numPages : ℤ) (rendered : Finset ℤ) (e : IntersectEntry) : Finset ℤ :=
  if e.isIntersecting then
    rendered ∪ Finset.Icc (max 1 (e.pageNumber - PAGES_TO_PRELOAD_BUFFER))
      (min numPages (e.pageNumber + PAGES_TO_PRELOAD_BUFFER))
  else rendered

/-- The admission part of `handleIntersect`: fold `admitStep` over the
batch of observer entries, starting from the current rendered set. -/
def handleIntersectAdmit (numPages : ℤ) (entries : List IntersectEntry)
    (rendered : Finset ℤ) : Finset ℤ :=
  entries.foldl (admitStep numPages) rendered

/-- One step of the topmost-visible-page selection in the debounced part of
`handleIntersect` (`PDFViewer.tsx` lines 400-416): an intersecting entry
with positive page number replaces the current candidate when its bounding
rectangle top is strictly smaller. -/
def topVisibleFold (best : Option (ℤ × ℚ)) (e : IntersectEntry) : Option (ℤ × ℚ) :=
  if e.isIntersecting ∧ 0 < e.pageNumber then
    match best with
    | none => some (e.pageNumber, e.top)
    | some b => if e.top < b.2 then some (e.pageNumber, e.top) else some b
  else best

/-- The page reported by the debounced visible-page callback, if any. -/
def topVisiblePage (entries : List IntersectEntry) : Option ℤ :=
  (entries.foldl topVisibleFold none).map Prod.fst

/-- One extracted text run (`textContent.items` element); only its literal
`str` matters to the search scan. -/
structure TextItem where
  str : List Char
deriving DecidableEq

/-- A search match exactly as built by the search effect of
`PDFViewer.tsx` (lines 446-475). -/
structure SearchMatch where
  pageIndex : ℕ
  itemIndex : ℕ
  text : List Char
  query : List Char
  startIndexInItem : ℕ
  endIndexInItem : ℕ
deriving DecidableEq

/-- JavaScript `toLowerCase`, restricted to per-character lowering. -/
def strLower (s : List Char) : List Char := s.map Char.toLower

/-- Whether `q` occurs in `s` starting exactly at index `i`. -/
def matchAt (s q : List Char) (i : ℕ) : Bool := (s.drop i).take q.length == q

/-- JavaScript `s.indexOf(q, start)`: the least index `i ≥ start` at which
`q` occurs in `s`, or `none` (`-1` in the source). -/
def indexOfFrom (s q : List Char) (start : ℕ) : Option ℕ :=
  (List.range (s.length + 1)).find? (fun i => decide (start ≤ i) && matchAt s q i)

/-- The `while (startIndex !== -1)` scan of the search effect, recording
`(startIndex, startIndex + query.length)` for each occurrence and resuming
the `indexOf` scan at `startIndex + 1`.  The fuel argument bounds the
number of loop iterations; `s.length + 1` iterations always suffice because
each found index is at least one larger than the previous one. -/
def scanItemAux (s q : List Char) : ℕ → ℕ → List (ℕ × ℕ)
  | 0, _ => []
  | Nat.succ fuel, start =>
      match indexOfFrom s q start with
      | none => []
      | some i => (i, i + q.length) :: scanItemAux s q fuel (i + 1)

/-- All occurrences of `q` in `s` found by the repeated-`indexOf` scan. -/
def scanItem (s q : List Char) : List (ℕ × ℕ) := scanItemAux s q (s.length + 1) 0

/-- The inner loops of the search effect for one page: for each text item
in order (`forEach` with index), scan the lowercased item text for the
lowercased query and record a `SearchMatch` per occurrence. -/
def pageMatches (pageNum : ℕ) (pageItems : List TextItem) (query : List Char) :
    List SearchMatch :=
  pageItems.enum.flatMap (fun p =>
    (scanItem (strLower p.2.str) (strLower query)).map (fun m =>
      { pageIndex := pageNum - 1, itemIndex := p.1, text := p.2.str, query := query,
        startIndexInItem := m.1, endIndexInItem := m.2 }))

/-- The whole search effect scan (`PDFViewer.tsx` lines 452-469): pages
`1..numPages` in ascending order, each page's items in order. -/
def searchDocument (numPages : ℤ) (items : ℤ → List TextItem) (query : List Char) :
    List SearchMatch :=
  (List.range numPages.toNat).flatMap (fun k =>
    pageMatches (k + 1) (items ((k : ℤ) + 1)) query)

/-- Strict document order on matches: page, then item, then start offset. -/
def matchLT (a b : SearchMatch) : Prop :=
  a.pageIndex < b.pageIndex ∨
    (a.pageIndex = b.pageIndex ∧ (a.itemIndex < b.itemIndex ∨
      (a.itemIndex = b.itemIndex ∧ a.startIndexInItem < b.startIndexInItem)))

/-- Combined application/viewer state: the `App` component state of
`src/unnamed/part_001` (file, page, zoom-independent navigation and search
state) together with the `PDFViewer` component state of
`src/lib/components/PDFViewer.tsx` (rendered pages, page refs, recorded
intrinsic page dimensions, extracted text items, load error, and the
programmatic-scroll bookkeeping refs).  `scrollLog` records, in order, the
pages passed to `scrollIntoView` by the go-to-page effect. -/
structure State where
  pdfFile : Option ℕ
  page : ℤ
  totalPages : ℤ
  goToPageNumber : Option ℤ
  userHadRecentScroll : Bool
  searchQuery : List Char
  searchMatches : List SearchMatch
  currentMatchIndex : ℤ
  searchTriggerCounter : ℕ
  numPages : Option ℤ
  loadError : Bool
  renderedPages : Finset ℤ
  pageRefs : Finset ℤ
  lastProgrammaticScroll : Option ℤ
  scrollLog : List ℤ
  originalPageDimensions : ℤ → Option Dimensions
  textItemsByPage : ℤ → List TextItem

/-- An empty baseline state, convenient for building concrete states. -/
def baseState : State :=
  { pdfFile := none, page := 1, totalPages := 1, goToPageNumber := none,
    userHadRecentScroll := false, searchQuery := [], searchMatches := [],
    currentMatchIndex := -1, searchTriggerCounter := 0, numPages := none,
    loadError := false, renderedPages := ∅, pageRefs := ∅,
    lastProgrammaticScroll := none, scrollLog := [],
    originalPageDimensions := fun _ => none, textItemsByPage := fun _ => [] }

/-- Function `App.handlePageChange` (`src/unnamed/part_001` lines 111-122): clamp the
requested page to `[1, totalPages || 1]`; if it differs from the current
page, store it, and additionally set `goToPageNumber` when the change is an
explicit go-to. -/
def handlePageChange (newPage : ℤ) (explicitGoTo : Bool) (st : State) : State :=
  let validPage := max 1 (min newPage (if st.totalPages ≠ 0 then st.totalPages else 1))
  if validPage ≠ st.page then
    if explicitGoTo then { st with page := validPage, goToPageNumber := some validPage }
    else { st with page := validPage }
  else st

/-- The go-to-page effect of `PDFViewer.tsx` (lines 329-341): when
`goToPageNumber` is truthy, differs from the last programmatic scroll
target, and the page's element ref exists, scroll it into view and record
it as the last target; when `goToPageNumber` is falsy, clear the recorded
target. -/
def applyGoToEffect (st : State) : State :=
  match st.goToPageNumber with
  | some g =>
      if g ≠ 0 then
        if st.lastProgrammaticScroll ≠ some g ∧ g ∈ st.pageRefs then
          { st with scrollLog := st.scrollLog ++ [g], lastProgrammaticScroll := some g }
        else st
      else { st with lastProgrammaticScroll := none }
  | none => { st with lastProgrammaticScroll := none }

/-- An explicit or implicit go-to-page request: `App.handlePageChange`
followed by the viewer's go-to-page effect reacting to the updated
`goToPageNumber` prop. -/
def goToPage (p : ℤ) (explicitGoTo : Bool) (st : State) : State :=
  applyGoToEffect (handlePageChange p explicitGoTo st)

/-- Function `handleUserScroll` (`PDFViewer.tsx` lines 307-316): records that the
user scrolled; a 300 ms timer later clears the flag. -/
def handleUserScroll (st : State) : State :=
  { st with userHadRecentScroll := true }

/-- Expiry of the 300 ms user-scroll quiet-period timer. -/
def quietPeriodElapsed (st : State) : State :=
  { st with userHadRecentScroll := false }

/-- Expiry of the 300 ms `goToPageNumber` reset timer of `App`
(`src/unnamed/part_001` lines 432-437), composed with the viewer effect
that reacts to the prop becoming `undefined`. -/
def goToTimerReset (st : State) : State :=
  applyGoToEffect { st with goToPageNumber := none }

/-- A full visibility batch as handled by `handleIntersect`: admission of
preload neighborhoods of all intersecting pages, followed by the debounced
report of the topmost visible page through `onVisiblePageChanged`, which
`App` wires to a non-explicit `handlePageChange`.  The
`userHadRecentScroll` flag is in scope in the source handler but is not
consulted anywhere in it. -/
def processVisibilityBatch (entries : List IntersectEntry) (st : State) : State :=
  let st1 := { st with
    renderedPages := handleIntersectAdmit (st.numPages.getD 0) entries st.renderedPages }
  match topVisiblePage entries with
  | some p => handlePageChange p false st1
  | none => st1

/-- Function `App.onSearchResults` (`src/unnamed/part_001` lines 426-429): store the
matches and set the current index to `0` when there is at least one match
and to `-1` otherwise. -/
def onSearchResults (ms : List SearchMatch) (st : State) : State :=
  { st with searchMatches := ms,
            currentMatchIndex := if 0 < ms.length then 0 else -1 }

/-- An explicit search submission: `App.handleSearchSubmit` (lines
403-411; a whitespace-only query clears matches and sets the index to `-1`
without triggering the scan), composed with the viewer's trigger effect
(which runs the scan only when the query and `numPages` are truthy) and
`onSearchResults`. -/
def submitSearch (st : State) : State :=
  if st.searchQuery.all Char.isWhitespace then
    { st with searchMatches := [], currentMatchIndex := -1 }
  else
    let st1 := { st with searchTriggerCounter := st.searchTriggerCounter + 1 }
    match st1.numPages with
    | some n =>
        if n ≠ 0 then onSearchResults (searchDocument n st1.textItemsByPage st1.searchQuery) st1
        else st1
    | none => st1

/-- Function `App.handleNextMatch`: cyclic advance of the current match index. -/
def nextMatchOp (st : State) : State :=
  if 0 < st.searchMatches.length then
    { st with currentMatchIndex := (st.currentMatchIndex + 1) % (st.searchMatches.length : ℤ) }
  else st

/-- Function `App.handlePreviousMatch`: cyclic retreat of the current match index. -/
def prevMatchOp (st : State) : State :=
  if 0 < st.searchMatches.length then
    { st with currentMatchIndex :=
        (st.currentMatchIndex - 1 + st.searchMatches.length) % (st.searchMatches.length : ℤ) }
  else st

/-- A successful `App.handleOpenFile` (`src/unnamed/part_001` lines
130-158: `setPdfFile(blob); setPage(1)`) composed with the viewer's
file-change effect (`PDFViewer.tsx` lines 301-305: `pageRefs.current = {};
setRenderedPages(new Set())`).  The new blob is a fresh object, so the
file-change effect always fires.  No other store is touched: the recorded
page dimensions, the extracted text items, and the search state are left
as they were. -/
def openFileSuccess (fileId : ℕ) (st : State) : State :=
  { st with pdfFile := some fileId, page := 1, pageRefs := ∅, renderedPages := ∅ }

/-- Function `onDocumentLoadError` (`PDFViewer.tsx` lines 295-299): record the load
error and clear the rendered-pages set.  Nothing else is cleared and the
parent component is not notified. -/
def onDocumentLoadError (st : State) : State :=
  { st with loadError := true, renderedPages := ∅ }

/-- Function `onDocumentLoadSuccess` (`PDFViewer.tsx` lines 249-293) together with
`App.handlePdfLoaded`: record the page count, clear any load error, seed
the rendered set with `[1, min(numPages, PAGES_TO_PRELOAD_BUFFER + 1)]`
plus the neighborhood of the anchor page when one is supplied, and reset
the current page to 1. -/
def onDocumentLoadSuccess (n : ℤ) (scrollTo : Option ℤ) (st : State) : State :=
  let seed : Finset ℤ :=
    if 0 < n then
      Finset.Icc 1 (min n (PAGES_TO_PRELOAD_BUFFER + 1)) ∪
        (match scrollTo with
         | some s =>
             if s ≠ 0 then
               Finset.Icc (max 1 (s - PAGES_TO_PRELOAD_BUFFER))
                 (min n (s + PAGES_TO_PRELOAD_BUFFER))
             else ∅
         | none => ∅)
    else ∅
  { st with numPages := some n, loadError := false, renderedPages := seed,
            totalPages := n, page := 1 }

/-- The operations available within one loaded document's lifetime, i.e.
everything except replacing or (re)loading the document itself. -/
inductive DocOp where
  | visibility (entries : List IntersectEntry)
  | goTo (p : ℤ) (explicitGoTo : Bool)
  | scroll
  | quietElapsed
  | goToReset
  | submit
  | results (ms : List SearchMatch)
  | next
  | prev

/-- Interpretation of within-document operations as state transitions. -/
def stepDocOp : DocOp → State → State
  | DocOp.visibility entries => processVisibilityBatch entries
  | DocOp.goTo p ex => goToPage p ex
  | DocOp.scroll => handleUserScroll
  | DocOp.quietElapsed => quietPeriodElapsed
  | DocOp.goToReset => goToTimerReset
  | DocOp.submit => submitSearch
  | DocOp.results ms => onSearchResults ms
  | DocOp.next => nextMatchOp
  | DocOp.prev => prevMatchOp

/-- Concrete inputs used by the counterexamples and witnesses below. -/
def itemsCat : ℤ → List TextItem :=
  fun p => if p = 1 then [⟨"concatenate cats".toList⟩] else []

/-- One page whose single run is the text `aaa`. -/
def itemsAA : ℤ → List TextItem :=
  fun p => if p = 1 then [⟨"aaa".toList⟩] else []

/-- A match left over from a previously searched document. -/
def matchCat : SearchMatch := ⟨0, 0, "cat".toList, "cat".toList, 0, 3⟩

/-- An intrinsic page size recorded for a previously opened document. -/
def dimsA4 : Dimensions := ⟨600, 800⟩

/-- A state with a loaded document, recorded geometry, extracted text and
an active search, about to be replaced by a new document. -/
def stOpen : State :=
  { baseState with
    pdfFile := some 0,
    totalPages := 5,
    numPages := some 5,
    searchQuery := "cat".toList,
    searchMatches := [matchCat],
    currentMatchIndex := 0,
    renderedPages := {1, 2},
    pageRefs := {1, 2},
    originalPageDimensions := fun p => if p = 1 then some dimsA4 else none,
    textItemsByPage := fun p => if p = 1 then [⟨"cat".toList⟩] else [] }

/-- A state with extracted text and an active search that then receives a
document-load error. -/
def stErr : State :=
  { baseState with
    page := 3,
    totalPages := 10,
    numPages := some 10,
    searchMatches := [matchCat],
    currentMatchIndex := 0,
    renderedPages := {1, 2, 3},
    textItemsByPage := fun p => if p = 1 then [⟨"cat".toList⟩] else [] }

/-- A quiescent ten-page state with element refs for pages 3 and 5. -/
def stNav : State :=
  { baseState with
    totalPages := 10,
    numPages := some 10,
    pageRefs := {3, 5} }

/-- A ten-page state awaiting a visibility batch. -/
def stVis : State :=
  { baseState with
    totalPages := 10,
    numPages := some 10 }

/-- A visibility entry reporting page 5 as intersecting. -/
def entVis : IntersectEntry := ⟨5, true, 0⟩

/-- A ten-page state on page 3 during the user-scroll quiet period. -/
def stFlag : State :=
  { baseState with
    page := 3,
    totalPages := 10,
    numPages := some 10,
    userHadRecentScroll := true,
    pageRefs := {5} }

/-- A one-page state with extracted text and the pending query `cat`. -/
def stSearch : State :=
  { baseState with
    searchQuery := "cat".toList,
    numPages := some 1,
    totalPages := 1,
    textItemsByPage := itemsCat }

/-- An index returned by `indexOfFrom` is at least the scan start. -/
theorem indexOfFrom_le {s q : List Char} {start i : ℕ}
    (h : indexOfFrom s q start = some i) : start ≤ i := by
  have h2 := List.find?_some h
  simp only [Bool.and_eq_true, decide_eq_true_eq] at h2
  exact h2.1

/-- Every occurrence found by the scan loop starts at or after the scan
start. -/
theorem scanItemAux_le {s q : List Char} :
    ∀ (fuel start : ℕ), ∀ p ∈ scanItemAux s q fuel start, start ≤ p.1 := by
  intro fuel
  induction fuel with
  | zero => intro start p hp; simp [scanItemAux] at hp
  | succ n ih =>
    intro start p hp
    rw [scanItemAux] at hp
    cases h : indexOfFrom s q start with
    | none => rw [h] at hp; simp at hp
    | some i =>
      rw [h] at hp
      rcases List.mem_cons.mp hp with rfl | hp2
      · exact indexOfFrom_le h
      · have h3 := ih (i + 1) p hp2
        have h4 := indexOfFrom_le h
        omega

/-- The start offsets produced by the scan loop are strictly increasing. -/
theorem scanItemAux_pairwise {s q : List Char} :
    ∀ (fuel start : ℕ), (scanItemAux s q fuel start).Pairwise (fun a b => a.1 < b.1) := by
  intro fuel
  induction fuel with
  | zero => intro start; simp [scanItemAux]
  | succ n ih =>
    intro start
    rw [scanItemAux]
    cases h : indexOfFrom s q start with
    | none => simp
    | some i =>
      refine List.Pairwise.cons ?_ (ih (i + 1))
      intro p hp
      have := scanItemAux_le n (i + 1) p hp
      omega

/-- The enumeration indices of a list are strictly increasing. -/
theorem enum_pairwise_fst {α : Type} (l : List α) :
    l.enum.Pairwise (fun a b => a.1 < b.1) := by
  have h : (List.map Prod.fst l.enum).Pairwise (fun a b => a < b) := by
    rw [show l.enum = l.enumFrom 0 from rfl, List.enumFrom_map_fst]
    exact List.pairwise_lt_range' 0 l.length
  exact List.pairwise_map.mp h

/-- Every match produced for one page carries that page's index. -/
theorem mem_pageMatches_pageIndex {pn : ℕ} {pageItems : List TextItem} {q : List Char}
    {m : SearchMatch} (h : m ∈ pageMatches pn pageItems q) : m.pageIndex = pn - 1 := by
  simp only [pageMatches, List.mem_flatMap, List.mem_map] at h
  obtain ⟨p, _, mm, _, rfl⟩ := h
  rfl

/-- The matches of one page are strictly ordered by (item, start offset). -/
theorem pageMatches_pairwise (pn : ℕ) (pageItems : List TextItem) (q : List Char) :
    (pageMatches pn pageItems q).Pairwise matchLT := by
  unfold pageMatches
  rw [List.pairwise_flatMap]
  constructor
  · intro a _
    rw [List.pairwise_map]
    apply (scanItemAux_pairwise _ _).imp
    intro x y hxy
    exact Or.inr ⟨rfl, Or.inr ⟨rfl, hxy⟩⟩
  · apply (enum_pairwise_fst pageItems).imp
    intro a b hab x hx y hy
    simp only [List.mem_map] at hx hy
    obtain ⟨mx, _, rfl⟩ := hx
    obtain ⟨my, _, rfl⟩ := hy
    exact Or.inr ⟨rfl, Or.inl hab⟩

/-- The full match list returned by the search scan is strictly ordered by
(page, item, start offset). -/
theorem searchDocument_pairwise (n : ℤ) (items : ℤ → List TextItem) (q : List Char) :
    (searchDocument n items q).Pairwise matchLT := by
  unfold searchDocument
  rw [List.pairwise_flatMap]
  constructor
  · intro k _; exact pageMatches_pairwise _ _ _
  · apply (List.pairwise_lt_range n.toNat).imp
    intro a b hab x hx y hy
    have hxp := mem_pageMatches_pageIndex hx
    have hyp2 := mem_pageMatches_pageIndex hy
    exact Or.inl (by omega)

/-- Folding the admission step over a batch only ever grows the set. -/
theorem subset_handleIntersectAdmit (n : ℤ) :
    ∀ (entries : List IntersectEntry) (s : Finset ℤ), s ⊆ handleIntersectAdmit n entries s := by
  intro entries
  induction entries with
  | nil => intro s; simp [handleIntersectAdmit]
  | cons e es ih =>
    intro s
    have h1 : s ⊆ admitStep n s e := by
      unfold admitStep
      split
      · exact Finset.subset_union_left
      · exact Finset.Subset.refl s
    exact h1.trans (ih (admitStep n s e))

/-- The preload neighborhood of any intersecting entry of a batch is
contained in the admission fold's result. -/
theorem Icc_subset_handleIntersectAdmit (n : ℤ) {e : IntersectEntry}
    (hI : e.isIntersecting = true) :
    ∀ (entries : List IntersectEntry), e ∈ entries → ∀ s : Finset ℤ,
      Finset.Icc (max 1 (e.pageNumber - PAGES_TO_PRELOAD_BUFFER))
        (min n (e.pageNumber + PAGES_TO_PRELOAD_BUFFER)) ⊆
        handleIntersectAdmit n entries s := by
  intro entries
  induction entries with
  | nil => intro h; cases h
  | cons a as ih =>
    intro hmem s
    rw [show handleIntersectAdmit n (a :: as) s
        = handleIntersectAdmit n as (admitStep n s a) from rfl]
    rcases List.mem_cons.mp hmem with rfl | hmem2
    · have h1 : Finset.Icc (max 1 (e.pageNumber - PAGES_TO_PRELOAD_BUFFER))
          (min n (e.pageNumber + PAGES_TO_PRELOAD_BUFFER)) ⊆ admitStep n s e := by
        unfold admitStep
        rw [if_pos hI]
        exact Finset.subset_union_right
      exact h1.trans (subset_handleIntersectAdmit n as _)
    · exact ih hmem2 _

/-- `handlePageChange` never touches the rendered-pages set. -/
theorem handlePageChange_renderedPages (p : ℤ) (ex : Bool) (st : State) :
    (handlePageChange p ex st).renderedPages = st.renderedPages := by
  simp only [handlePageChange]
  split_ifs <;> rfl

/-- The go-to-page effect never touches the rendered-pages set. -/
theorem applyGoToEffect_renderedPages (st : State) :
    (applyGoToEffect st).renderedPages = st.renderedPages := by
  unfold applyGoToEffect
  cases h : st.goToPageNumber with
  | none => rfl
  | some g =>
    dsimp only
    split
    · split <;> rfl
    · rfl

/-- When the clamped target equals the current page, `handlePageChange` is
a no-op. -/
theorem handlePageChange_noop {p : ℤ} {st : State} (ex : Bool)
    (h1 : 1 ≤ p) (h2 : p ≤ st.totalPages) (heq : p = st.page) :
    handlePageChange p ex st = st := by
  simp only [handlePageChange]
  split_ifs <;> first | rfl | (exfalso; omega)

/-- When the requested page is in range and differs from the current page,
an explicit `handlePageChange` stores it and arms `goToPageNumber`. -/
theorem handlePageChange_explicit {p : ℤ} {st : State}
    (h1 : 1 ≤ p) (h2 : p ≤ st.totalPages) (hne : p ≠ st.page) :
    handlePageChange p true st = { st with page := p, goToPageNumber := some p } := by
  have hT : st.totalPages ≠ 0 := by omega
  have hv : max 1 (min p (if st.totalPages ≠ 0 then st.totalPages else 1)) = p := by
    rw [if_pos hT]; omega
  simp only [handlePageChange, hv]
  rw [if_pos hne]
  exact if_pos trivial

/-- When `goToPageNumber` holds a nonzero page differing from the last
programmatic target whose element ref exists, the go-to effect scrolls and
records the target. -/
theorem applyGoToEffect_fires {st : State} {g : ℤ} (hg : st.goToPageNumber = some g)
    (h0 : g ≠ 0) (hlast : st.lastProgrammaticScroll ≠ some g) (href : g ∈ st.pageRefs) :
    applyGoToEffect st =
      { st with scrollLog := st.scrollLog ++ [g], lastProgrammaticScroll := some g } := by
  unfold applyGoToEffect
  rw [hg]
  dsimp only
  rw [if_pos h0, if_pos ⟨hlast, href⟩]

/-- When `goToPageNumber` already equals the last programmatic target, the
go-to effect does nothing. -/
theorem applyGoToEffect_blocked {st : State} {g : ℤ} (hg : st.goToPageNumber = some g)
    (h0 : g ≠ 0) (hlast : st.lastProgrammaticScroll = some g) :
    applyGoToEffect st = st := by
  unfold applyGoToEffect
  rw [hg]
  dsimp only
  rw [if_pos h0, if_neg]
  simp [hlast]

/-- An in-range explicit go-to-page request to a fresh target scrolls
exactly once and records the target. -/
theorem goToPage_fires {p : ℤ} {st : State}
    (h1 : 1 ≤ p) (h2 : p ≤ st.totalPages) (hne : p ≠ st.page)
    (hlast : st.lastProgrammaticScroll ≠ some p) (href : p ∈ st.pageRefs) :
    goToPage p true st =
      { st with page := p, goToPageNumber := some p,
                scrollLog := st.scrollLog ++ [p], lastProgrammaticScroll := some p } := by
  unfold goToPage
  rw [handlePageChange_explicit h1 h2 hne]
  exact applyGoToEffect_fires rfl (by omega) hlast href

/-- Repeating an explicit go-to-page request for the page that is already
current and already recorded as the last programmatic target does
nothing. -/
theorem goToPage_same_target_noop {p : ℤ} {st : State}
    (h1 : 1 ≤ p) (h2 : p ≤ st.totalPages) (heq : p = st.page)
    (hg : st.goToPageNumber = some p) (hlast : st.lastProgrammaticScroll = some p) :
    goToPage p true st = st := by
  unfold goToPage
  rw [handlePageChange_noop true h1 h2 heq]
  exact applyGoToEffect_blocked hg (by omega) hlast

/-- The visibility-batch handler ignores the recent-user-scroll flag: it
commutes with setting the flag to any value. -/
theorem processVisibilityBatch_flag (entries : List IntersectEntry) (st : State) (b : Bool) :
    processVisibilityBatch entries { st with userHadRecentScroll := b } =
      { processVisibilityBatch entries st with userHadRecentScroll := b } := by
  unfold processVisibilityBatch
  dsimp only
  cases htop : topVisiblePage entries with
  | none => rfl
  | some p =>
    unfold handlePageChange
    dsimp only
    split_ifs <;> rfl

/-- Callback `onSearchResults` never touches the rendered-pages set. -/
theorem onSearchResults_renderedPages (ms : List SearchMatch) (st : State) :
    (onSearchResults ms st).renderedPages = st.renderedPages := rfl

/-- Submission `submitSearch` never touches the rendered-pages set. -/
theorem submitSearch_renderedPages (st : State) :
    (submitSearch st).renderedPages = st.renderedPages := by
  unfold submitSearch
  split
  · rfl
  · dsimp only
    cases st.numPages with
    | none => rfl
    | some n =>
      dsimp only
      split
      · rfl
      · rfl

/-- Navigation `goToPage` never touches the rendered-pages set. -/
theorem goToPage_renderedPages (p : ℤ) (ex : Bool) (st : State) :
    (goToPage p ex st).renderedPages = st.renderedPages := by
  unfold goToPage
  rw [applyGoToEffect_renderedPages, handlePageChange_renderedPages]

/-- The go-to-page-number reset timer never touches the rendered-pages
set. -/
theorem goToTimerReset_renderedPages (st : State) :
    (goToTimerReset st).renderedPages = st.renderedPages := by
  unfold goToTimerReset
  rw [applyGoToEffect_renderedPages]

/-- Operation `nextMatchOp` never touches the rendered-pages set. -/
theorem nextMatchOp_renderedPages (st : State) :
    (nextMatchOp st).renderedPages = st.renderedPages := by
  unfold nextMatchOp
  split <;> rfl

/-- Operation `prevMatchOp` never touches the rendered-pages set. -/
theorem prevMatchOp_renderedPages (st : State) :
    (prevMatchOp st).renderedPages = st.renderedPages := by
  unfold prevMatchOp
  split <;> rfl

/-- A visibility batch only ever grows the rendered-pages set. -/
theorem processVisibilityBatch_renderedPages (entries : List IntersectEntry) (st : State) :
    (processVisibilityBatch entries st).renderedPages
      = handleIntersectAdmit (st.numPages.getD 0) entries st.renderedPages := by
  unfold processVisibilityBatch
  dsimp only
  cases htop : topVisiblePage entries with
  | none => rfl
  | some p => rw [handlePageChange_renderedPages]

/-- Every scale emitted by the immediate FitPage pass exceeds `0.01`. -/
theorem calculateFitPage_floor (ct : Option Dimensions) (cw ch : Option ℚ)
    (pd : Option Dimensions) (s : ℚ)
    (h : calculateFitPage ct cw ch pd = FitResult.scale s) : 1 / 100 < s := by
  unfold calculateFitPage at h
  cases pd with
  | none => simp at h
  | some d =>
    dsimp only at h
    rcases h1 : jsOrQ (ct.map Dimensions.width) cw with _ | w <;>
      rcases h2 : jsOrQ (ct.map Dimensions.height) ch with _ | v <;>
      rw [h1, h2] at h <;>
      simp only [FitResult.scale.injEq] at h
    · subst h; norm_num
    · subst h; norm_num
    · subst h; norm_num
    · split_ifs at h with hc1 hc2 <;> simp only [FitResult.scale.injEq] at h <;> subst h
      · exact hc2
      · norm_num
      · norm_num

/-- Every scale emitted by the FitPage retry pass exceeds `0.01`. -/
theorem calculateFitPageRetry_floor (ct : Option Dimensions) (cw ch : Option ℚ)
    (pd : Option Dimensions) (s : ℚ)
    (h : calculateFitPageRetry ct cw ch pd = FitResult.scale s) : 1 / 100 < s := by
  unfold calculateFitPageRetry at h
  rcases pd with _ | d <;>
    rcases h1 : jsOrQ (ct.map Dimensions.width) cw with _ | w <;>
      rcases h2 : jsOrQ (ct.map Dimensions.height) ch with _ | v <;>
      rw [h1, h2] at h <;>
      simp only [FitResult.scale.injEq] at h
  · subst h; norm_num
  · subst h; norm_num
  · subst h; norm_num
  · subst h; norm_num
  · subst h; norm_num
  · subst h; norm_num
  · subst h; norm_num
  · split_ifs at h with hc1 hc2 <;> simp only [FitResult.scale.injEq] at h <;> subst h
    · exact hc2
    · norm_num
    · norm_num

/-- Every scale emitted by the immediate FitWidth pass is positive (but it
is not floored at `0.01`). -/
theorem calculateFitWidth_pos (ct : Option Dimensions) (cw pw : Option ℚ) (s : ℚ)
    (h : calculateFitWidth ct cw pw = FitResult.scale s) : 0 < s := by
  unfold calculateFitWidth at h
  rcases pw with _ | w <;>
    rcases h1 : jsOrQ (ct.map Dimensions.width) cw with _ | c <;>
      rw [h1] at h <;> dsimp only at h
  · simp at h
  · simp at h
  · simp at h
  · split_ifs at h with hc1 hc2 <;> simp only [FitResult.scale.injEq] at h
    · subst h; exact div_pos hc2.1 hc2.2
    · subst h; norm_num

/-- A non-positive recorded page dimension makes the immediate FitPage
pass fall back to scale `1`. -/
theorem calculateFitPage_degenerate (ct : Option Dimensions) (cw ch : Option ℚ)
    (d : Dimensions) (hd : d.width ≤ 0 ∨ d.height ≤ 0) :
    calculateFitPage ct cw ch (some d) = FitResult.scale 1 := by
  unfold calculateFitPage
  dsimp only
  rcases h1 : jsOrQ (ct.map Dimensions.width) cw with _ | w <;>
    rcases h2 : jsOrQ (ct.map Dimensions.height) ch with _ | v <;> dsimp only
  all_goals
    rw [if_neg]
    rintro ⟨-, -, hw0, hh0, hwp, hhp⟩
    rcases hd with hd | hd <;> linarith

/-- A negative recorded page width makes the immediate FitWidth pass fall
back to scale `1` (or arm the retry when the container width is falsy). -/
theorem calculateFitWidth_degenerate (ct : Option Dimensions) (cw : Option ℚ)
    (w : ℚ) (hw : w < 0) :
    calculateFitWidth ct cw (some w) = FitResult.scale 1 ∨
      calculateFitWidth ct cw (some w) = FitResult.retry := by
  unfold calculateFitWidth
  rcases h1 : jsOrQ (ct.map Dimensions.width) cw with _ | c <;> dsimp only
  · right; rfl
  · split_ifs with hc1 hc2
    · exfalso; linarith [hc2.2]
    · left; rfl
    · right; rfl

/-- A zero page width reaching the FitWidth retry pass falls back to
scale `1`. -/
theorem calculateFitWidthRetry_zero (ct : Option Dimensions) (cw : Option ℚ) :
    calculateFitWidthRetry ct cw (some 0) = FitResult.scale 1 := by
  unfold calculateFitWidthRetry
  rcases h1 : jsOrQ (ct.map Dimensions.width) cw with _ | c <;> dsimp only
  all_goals
    rw [if_neg]
    rintro ⟨-, h0, -⟩
    exact h0 rfl

/-- Claim C1 counterexample: replacing the document does NOT clear the
PageGeometry map or the SearchState — the prior document's intrinsic size
for page 1, its match list, current match index, query, and extracted text
all remain observable after `openFileSuccess`; only the rendered-pages set
(and the page refs) are cleared. -/
theorem C1_counterexample :
    (openFileSuccess 1 stOpen).originalPageDimensions 1 = some dimsA4 ∧
    (openFileSuccess 1 stOpen).searchMatches = [matchCat] ∧
    (openFileSuccess 1 stOpen).searchMatches ≠ [] ∧
    (openFileSuccess 1 stOpen).currentMatchIndex = 0 ∧
    (openFileSuccess 1 stOpen).textItemsByPage 1 ≠ [] ∧
    (openFileSuccess 1 stOpen).renderedPages = ∅ := by
  refine ⟨rfl, rfl, by decide, rfl, by decide, rfl⟩

/-- Claim C1 (amended): opening (replacing with) a new document clears the
RenderSet and the page element refs and resets the current page to 1, but
it leaves the SearchState (query, matches, currentIndex), the PageGeometry
map, and the extracted text items untouched — entries from the prior
document persist until overwritten. -/
theorem C1_open_document_reset_scope (fid : ℕ) (st : State) :
    (openFileSuccess fid st).renderedPages = ∅ ∧
    (openFileSuccess fid st).pageRefs = ∅ ∧
    (openFileSuccess fid st).page = 1 ∧
    (openFileSuccess fid st).pdfFile = some fid ∧
    (openFileSuccess fid st).searchQuery = st.searchQuery ∧
    (openFileSuccess fid st).searchMatches = st.searchMatches ∧
    (openFileSuccess fid st).currentMatchIndex = st.currentMatchIndex ∧
    (openFileSuccess fid st).originalPageDimensions = st.originalPageDimensions ∧
    (openFileSuccess fid st).textItemsByPage = st.textItemsByPage :=
  ⟨rfl, rfl, rfl, rfl, rfl, rfl, rfl, rfl, rfl⟩

/-- Claim C2 counterexample: with intrinsic size 1000×1000 and target
5×5 (all positive), the FitPage pass emits scale 1, not the claimed
`min(5/1000, 5/1000) = 1/200`, because the computed minimum is ≤ 0.01. -/
theorem C2_counterexample :
    calculateFitPage none (some 5) (some 5) (some ⟨1000, 1000⟩) = FitResult.scale 1 ∧
    min ((5 : ℚ) / 1000) ((5 : ℚ) / 1000) ≠ 1 := by
  constructor
  · norm_num [calculateFitPage, jsOrQ, min_def]
  · norm_num

/-- Claim C2 (amended): for positive intrinsic and target dimensions,
resolving FitPage yields `min(targetWidth/intrinsicWidth,
targetHeight/intrinsicHeight)` PROVIDED that minimum exceeds 0.01 (a
smaller minimum is replaced by scale 1); the target can be supplied
explicitly or, when absent, the live container size is used in its place.
In particular the resolution at intrinsic 600×800 and target 300×500
yields 0.5. -/
theorem C2_fitPage_min_formula (iw ih w h : ℚ) (cw ch : Option ℚ)
    (hiw : 0 < iw) (hih : 0 < ih) (hw : 0 < w) (hh : 0 < h)
    (hmin : 1 / 100 < min (w / iw) (h / ih)) :
    calculateFitPage (some ⟨w, h⟩) cw ch (some ⟨iw, ih⟩)
        = FitResult.scale (min (w / iw) (h / ih)) ∧
    calculateFitPage none (some w) (some h) (some ⟨iw, ih⟩)
        = FitResult.scale (min (w / iw) (h / ih)) := by
  constructor <;>
    simp [calculateFitPage, jsOrQ, hw.ne', hh.ne', hiw.ne', hih.ne', hiw, hih, hmin]
  all_goals
    intro hcon
    exfalso
    rw [lt_min_iff] at hmin
    simp only [one_div] at hmin
    exact absurd (hcon hmin.1) (not_le.mpr hmin.2)

/-- Witness for C2: the spec's concrete example, through the theorem. -/
theorem C2_fitPage_min_formula_witness :
    calculateFitPage (some ⟨300, 500⟩) none none (some ⟨600, 800⟩)
        = FitResult.scale (1 / 2) ∧
    calculateFitPage none (some 300) (some 500) (some ⟨600, 800⟩)
        = FitResult.scale (1 / 2) := by
  have h := C2_fitPage_min_formula 600 800 300 500 none none (by norm_num) (by norm_num)
    (by norm_num) (by norm_num) (by norm_num [min_def])
  have hmin : min ((300 : ℚ) / 600) ((500 : ℚ) / 800) = 1 / 2 := by norm_num [min_def]
  exact ⟨hmin ▸ h.1, hmin ▸ h.2⟩

/-- Claim C3 counterexample: the FitWidth pass has no 0.01 floor — with a
positive container width 1 and page width 1000 it emits the degenerate
scale 1/1000 (≤ 0.01) instead of falling back to 1. -/
theorem C3_counterexample :
    calculateFitWidth none (some 1) (some 1000) = FitResult.scale (1 / 1000) ∧
    (1 / 1000 : ℚ) ≤ 1 / 100 ∧ (1 / 1000 : ℚ) ≠ 1 := by
  refine ⟨by norm_num [calculateFitWidth, jsOrQ], by norm_num, by norm_num⟩

/-- Claim C3 (amended): FitPage (immediate and retry passes) never emits a
scale ≤ 0.01 — non-positive page dimensions and tiny ratios fall back to
scale 1. FitWidth emits only positive scales, and a negative page width
falls back to 1 (or arms the retry, whose zero-width case also falls back
to 1) — but FitWidth has NO 0.01 floor: a positive ratio ≤ 0.01 is emitted
as-is. -/
theorem C3_degenerate_fallbacks :
    (∀ (ct : Option Dimensions) (cw ch : Option ℚ) (pd : Option Dimensions) (s : ℚ),
        calculateFitPage ct cw ch pd = FitResult.scale s → 1 / 100 < s) ∧
    (∀ (ct : Option Dimensions) (cw ch : Option ℚ) (pd : Option Dimensions) (s : ℚ),
        calculateFitPageRetry ct cw ch pd = FitResult.scale s → 1 / 100 < s) ∧
    (∀ (ct : Option Dimensions) (cw pw : Option ℚ) (s : ℚ),
        calculateFitWidth ct cw pw = FitResult.scale s → 0 < s) ∧
    (∀ (ct : Option Dimensions) (cw ch : Option ℚ) (d : Dimensions),
        d.width ≤ 0 ∨ d.height ≤ 0 →
          calculateFitPage ct cw ch (some d) = FitResult.scale 1) ∧
    (∀ (ct : Option Dimensions) (cw : Option ℚ) (w : ℚ), w < 0 →
        calculateFitWidth ct cw (some w) = FitResult.scale 1 ∨
          calculateFitWidth ct cw (some w) = FitResult.retry) ∧
    (∀ (ct : Option Dimensions) (cw : Option ℚ),
        calculateFitWidthRetry ct cw (some 0) = FitResult.scale 1) :=
  ⟨calculateFitPage_floor, calculateFitPageRetry_floor, calculateFitWidth_pos,
    calculateFitPage_degenerate, calculateFitWidth_degenerate, calculateFitWidthRetry_zero⟩

/-- Witness for C3: the fallback facts instantiated at concrete inputs. -/
theorem C3_degenerate_fallbacks_witness :
    (1 / 100 : ℚ) < 1 / 2 ∧ (0 : ℚ) < 1 / 1000 ∧
    calculateFitPage none none none (some ⟨-600, 800⟩) = FitResult.scale 1 ∧
    calculateFitWidthRetry none none (some 0) = FitResult.scale 1 := by
  refine ⟨C3_degenerate_fallbacks.1 none (some 300) (some 500) (some ⟨600, 800⟩) (1 / 2) ?_,
    C3_degenerate_fallbacks.2.2.1 none (some 1) (some 1000) (1 / 1000) ?_,
    C3_degenerate_fallbacks.2.2.2.1 none none none ⟨-600, 800⟩ (Or.inl (by norm_num)),
    C3_degenerate_fallbacks.2.2.2.2.2 none none⟩
  · norm_num [calculateFitPage, jsOrQ, min_def]
  · norm_num [calculateFitWidth, jsOrQ]

/-- Claim C4: after a visibility batch reports a page as intersecting,
the rendered set contains every page of
`[pageNumber - PAGES_TO_PRELOAD_BUFFER, pageNumber + PAGES_TO_PRELOAD_BUFFER] ∩ [1, pageCount]`. -/
theorem C4_preload_window (st : State) (entries : List IntersectEntry) (e : IntersectEntry)
    (n i : ℤ) (hn : st.numPages = some n) (he : e ∈ entries) (hI : e.isIntersecting = true)
    (h1 : 1 ≤ i) (h2 : i ≤ n) (h3 : e.pageNumber - PAGES_TO_PRELOAD_BUFFER ≤ i)
    (h4 : i ≤ e.pageNumber + PAGES_TO_PRELOAD_BUFFER) :
    i ∈ (processVisibilityBatch entries st).renderedPages ∧ PAGES_TO_PRELOAD_BUFFER = 3 := by
  refine ⟨?_, rfl⟩
  rw [processVisibilityBatch_renderedPages, hn, Option.getD_some]
  exact Icc_subset_handleIntersectAdmit n hI entries he st.renderedPages
    (Finset.mem_Icc.mpr ⟨max_le h1 h3, le_min h2 h4⟩)

/-- Witness for C4: page 5 intersecting on a ten-page document admits
page 7. -/
theorem C4_preload_window_witness :
    (7 : ℤ) ∈ (processVisibilityBatch [entVis] stVis).renderedPages ∧
      PAGES_TO_PRELOAD_BUFFER = 3 :=
  C4_preload_window stVis [entVis] entVis 10 7 rfl (by decide) rfl
    (by decide) (by decide) (by decide) (by decide)

/-- Claim C5 counterexample: the indexOf scan resumes one character past
each match START, so occurrences can overlap — searching `aa` in the run
`aaa` yields matches [0,2) and [1,3), which overlap. -/
theorem C5_counterexample :
    (searchDocument 1 itemsAA ("aa".toList)).map
        (fun m => (m.startIndexInItem, m.endIndexInItem)) = [(0, 2), (1, 3)] ∧
    ¬ (searchDocument 1 itemsAA ("aa".toList)).Pairwise
        (fun a b => a.endIndexInItem ≤ b.startIndexInItem) := by
  constructor
  · decide
  · decide

/-- Claim C5 (amended): the search performs case-insensitive substring
matching by repeated indexOf scanning resuming one character past each
match start; the found occurrences CAN overlap (only their start offsets
are strictly increasing), and the match list is ordered by (pageNumber,
run index, start offset) ascending. The concrete example holds:
searching `cat` (in either case) over the single run `concatenate cats`
yields exactly the two matches [3,6) and [12,15), left to right. -/
theorem C5_search_scan_order (n : ℤ) (items : ℤ → List TextItem) (q : List Char) :
    (searchDocument n items q).Pairwise matchLT ∧
    (searchDocument 1 itemsCat ("cat".toList)).map
        (fun m => (m.pageIndex, m.itemIndex, m.startIndexInItem, m.endIndexInItem))
      = [(0, 0, 3, 6), (0, 0, 12, 15)] ∧
    (searchDocument 1 itemsCat ("CAT".toList)).map
        (fun m => (m.startIndexInItem, m.endIndexInItem)) = [(3, 6), (12, 15)] :=
  ⟨searchDocument_pairwise n items q, by decide, by decide⟩

/-- Claim C6: from a quiescent state, issuing an explicit go-to-page for a
fresh in-range target `p` twice in immediate succession emits exactly one
programmatic scroll to `p`; the sequence `p`, `q`, `p` (with `p ≠ q`)
emits two distinct scrolls to `p` (with the scroll to `q` in between),
because the intervening target change lets the repeated target re-fire. -/
theorem C6_goto_idempotence_refire (st : State) (p q : ℤ)
    (_hg : st.goToPageNumber = none) (hl : st.lastProgrammaticScroll = none)
    (hp1 : 1 ≤ p) (hp2 : p ≤ st.totalPages) (hq1 : 1 ≤ q) (hq2 : q ≤ st.totalPages)
    (hpg : p ≠ st.page) (hqp : q ≠ p)
    (hrp : p ∈ st.pageRefs) (hrq : q ∈ st.pageRefs) :
    (goToPage p true (goToPage p true st)).scrollLog = st.scrollLog ++ [p] ∧
    (goToPage p true (goToPage q true (goToPage p true st))).scrollLog
      = st.scrollLog ++ [p, q, p] := by
  have hlastp : st.lastProgrammaticScroll ≠ some p := by rw [hl]; simp
  have e1 := goToPage_fires hp1 hp2 hpg hlastp hrp
  constructor
  · have f2 : goToPage p true (goToPage p true st) = goToPage p true st := by
      refine @goToPage_same_target_noop p (goToPage p true st) hp1 ?_ ?_ ?_ ?_
      · rw [e1]; exact hp2
      · rw [e1]
      · rw [e1]
      · rw [e1]
    rw [f2, e1]
  · have e2 := @goToPage_fires q (goToPage p true st) hq1
      (by rw [e1]; exact hq2) (by rw [e1]; exact hqp)
      (by rw [e1]; exact fun hc => hqp (Option.some.inj hc).symm)
      (by rw [e1]; exact hrq)
    have e3 := @goToPage_fires p (goToPage q true (goToPage p true st)) hp1
      (by rw [e2, e1]; exact hp2) (by rw [e2]; exact Ne.symm hqp)
      (by rw [e2]; exact fun hc => hqp (Option.some.inj hc))
      (by rw [e2, e1]; exact hrp)
    rw [e3, e2, e1]
    simp

/-- Witness for C6: on a concrete quiescent ten-page state, go-to 3 twice
scrolls once; go-to 3, 5, 3 scrolls three times, twice to 3. -/
theorem C6_goto_idempotence_refire_witness :
    (goToPage 3 true (goToPage 3 true stNav)).scrollLog = [3] ∧
    (goToPage 3 true (goToPage 5 true (goToPage 3 true stNav))).scrollLog = [3, 5, 3] := by
  have h := C6_goto_idempotence_refire stNav 3 5 rfl rfl (by decide) (by decide)
    (by decide) (by decide) (by decide) (by decide) (by decide) (by decide)
  exact ⟨by simpa [stNav, baseState] using h.1, by simpa [stNav, baseState] using h.2⟩

/-- Claim C7 counterexample: with the recent-user-scroll flag set (inside
the 300 ms quiet period), a visibility batch reporting page 5 as most
visible still updates the current page from 3 to 5 — the debounced
most-visible-page report is NOT suppressed. -/
theorem C7_counterexample :
    stFlag.userHadRecentScroll = true ∧
    stFlag.page = 3 ∧
    (processVisibilityBatch [entVis] stFlag).page = 5 := ⟨rfl, rfl, rfl⟩

/-- Claim C7 (amended): the viewer records a user-scroll flag and clears
it after a ≈300 ms quiet period, but the flag is never consulted: the
visibility-batch handler behaves identically whatever the flag's value
(so most-visible-page tracking is not suppressed while the user scrolls),
and an explicit go-to-page request issued during the quiet period is
honored. -/
theorem C7_no_suppression :
    (∀ (entries : List IntersectEntry) (st : State) (b₁ b₂ : Bool),
        (processVisibilityBatch entries { st with userHadRecentScroll := b₁ }).page =
          (processVisibilityBatch entries { st with userHadRecentScroll := b₂ }).page) ∧
    (∀ (st : State) (p : ℤ), st.userHadRecentScroll = true →
        1 ≤ p → p ≤ st.totalPages → p ≠ st.page →
        st.lastProgrammaticScroll ≠ some p → p ∈ st.pageRefs →
        (goToPage p true st).scrollLog = st.scrollLog ++ [p]) := by
  constructor
  · intro entries st b₁ b₂
    rw [processVisibilityBatch_flag entries st b₁, processVisibilityBatch_flag entries st b₂]
  · intro st p _ h1 h2 hne hlast href
    rw [goToPage_fires h1 h2 hne hlast href]

/-- Witness for C7: flag obliviousness and an honored explicit go-to at
concrete inputs. -/
theorem C7_no_suppression_witness :
    (processVisibilityBatch [entVis] { stFlag with userHadRecentScroll := true }).page =
      (processVisibilityBatch [entVis] { stFlag with userHadRecentScroll := false }).page ∧
    (goToPage 5 true stFlag).scrollLog = [5] := by
  refine ⟨C7_no_suppression.1 [entVis] stFlag true false, ?_⟩
  have h := C7_no_suppression.2 stFlag 5 rfl (by decide) (by decide) (by decide)
    (by decide) (by decide)
  simpa [stFlag, baseState] using h

/-- Claim C8 counterexample: a document-load error clears only the
rendered-pages set — the extracted text items, the match state, and the
current page survive the failure. -/
theorem C8_counterexample :
    (onDocumentLoadError stErr).renderedPages = ∅ ∧
    (onDocumentLoadError stErr).textItemsByPage 1 ≠ [] ∧
    (onDocumentLoadError stErr).searchMatches ≠ [] ∧
    (onDocumentLoadError stErr).page = 3 := by
  refine ⟨rfl, by decide, by decide, rfl⟩

/-- Claim C8 (amended): when the rendering collaborator cannot parse the
byte source, the viewer records the load error and clears the RenderSet,
but the SearchIndex (extracted text and match state) is NOT cleared and
the current page is left unchanged (the parent is not notified). -/
theorem C8_load_error_reset_scope (st : State) :
    (onDocumentLoadError st).loadError = true ∧
    (onDocumentLoadError st).renderedPages = ∅ ∧
    (onDocumentLoadError st).textItemsByPage = st.textItemsByPage ∧
    (onDocumentLoadError st).searchMatches = st.searchMatches ∧
    (onDocumentLoadError st).currentMatchIndex = st.currentMatchIndex ∧
    (onDocumentLoadError st).searchQuery = st.searchQuery ∧
    (onDocumentLoadError st).page = st.page :=
  ⟨rfl, rfl, rfl, rfl, rfl, rfl, rfl⟩

/-- Claim C9: within one loaded document's lifetime, every operation other
than replacing or (re)loading the document leaves the RenderSet a superset
of what it was — pages are only admitted, never evicted. -/
theorem C9_renderset_monotone (op : DocOp) (st : State) :
    st.renderedPages ⊆ (stepDocOp op st).renderedPages := by
  cases op with
  | visibility entries =>
    rw [show stepDocOp (DocOp.visibility entries) st = processVisibilityBatch entries st
        from rfl, processVisibilityBatch_renderedPages]
    exact subset_handleIntersectAdmit _ entries _
  | goTo p ex =>
    rw [show stepDocOp (DocOp.goTo p ex) st = goToPage p ex st from rfl,
      goToPage_renderedPages]
  | scroll => exact Finset.Subset.refl _
  | quietElapsed => exact Finset.Subset.refl _
  | goToReset =>
    rw [show stepDocOp DocOp.goToReset st = goToTimerReset st from rfl,
      goToTimerReset_renderedPages]
  | submit =>
    rw [show stepDocOp DocOp.submit st = submitSearch st from rfl,
      submitSearch_renderedPages]
  | results ms => exact Finset.Subset.refl _
  | next =>
    rw [show stepDocOp DocOp.next st = nextMatchOp st from rfl, nextMatchOp_renderedPages]
  | prev =>
    rw [show stepDocOp DocOp.prev st = prevMatchOp st from rfl, prevMatchOp_renderedPages]

/-- Claim C10: a search submission whose scan runs stores the scan's match
list (ordered by document order, so index 0 is the first match) and sets
`currentMatchIndex` to 0 when there is at least one match and to -1
otherwise; consequently the index is always -1 or a valid index
immediately after the submission. A whitespace-only submission clears the
matches and sets the index to -1 without scanning. -/
theorem C10_search_submission (st : State) (n : ℤ)
    (hq : st.searchQuery.all Char.isWhitespace = false)
    (hn : st.numPages = some n) (hn0 : n ≠ 0) :
    (submitSearch st).searchMatches = searchDocument n st.textItemsByPage st.searchQuery ∧
    (submitSearch st).currentMatchIndex =
      (if (submitSearch st).searchMatches = [] then -1 else 0) ∧
    ((submitSearch st).currentMatchIndex = -1 ∨
      (0 ≤ (submitSearch st).currentMatchIndex ∧
        (submitSearch st).currentMatchIndex < ((submitSearch st).searchMatches.length : ℤ))) ∧
    (submitSearch st).searchMatches.Pairwise matchLT ∧
    (∀ st2 : State, st2.searchQuery.all Char.isWhitespace = true →
      (submitSearch st2).searchMatches = [] ∧ (submitSearch st2).currentMatchIndex = -1) := by
  have hsub : submitSearch st =
      onSearchResults (searchDocument n st.textItemsByPage st.searchQuery)
        { st with searchTriggerCounter := st.searchTriggerCounter + 1 } := by
    unfold submitSearch
    rw [if_neg (by simp [hq])]
    dsimp only
    rw [show ({ st with searchTriggerCounter := st.searchTriggerCounter + 1 } : State).numPages
        = some n from hn]
    dsimp only
    rw [if_pos hn0]
  refine ⟨?_, ?_, ?_, ?_, ?_⟩
  · rw [hsub]
    rfl
  · rw [hsub]
    unfold onSearchResults
    dsimp only
    cases hms : searchDocument n st.textItemsByPage st.searchQuery with
    | nil => simp
    | cons a l => simp
  · rw [hsub]
    unfold onSearchResults
    dsimp only
    cases hms : searchDocument n st.textItemsByPage st.searchQuery with
    | nil => left; simp
    | cons a l =>
      right
      constructor
      · simp
      · simp
  · rw [hsub]
    exact searchDocument_pairwise n st.textItemsByPage st.searchQuery
  · intro st2 h2
    unfold submitSearch
    rw [if_pos h2]
    exact ⟨rfl, rfl⟩

/-- Witness for C10: submitting `cat` over one page containing
`concatenate cats` yields two matches with the first one current. -/
theorem C10_search_submission_witness :
    (submitSearch stSearch).currentMatchIndex = 0 ∧
    (submitSearch stSearch).searchMatches.length = 2 := by
  have h := C10_search_submission stSearch 1 (by decide) rfl (by decide)
  refine ⟨?_, by decide⟩
  rw [h.2.1, if_neg (by decide : ¬(submitSearch stSearch).searchMatches = [])]
